import Mathlib

/-!
Module.c: the native bindings of java.lang.reflect.Module

Module.c defines four JNI entry points. Each one has a body made of a single
call statement into the runtime (JVM_DefineModule, JVM_AddModuleExports,
JVM_AddReadsModule, JVM_AddModulePackage), dropping the cls argument.

The runtime functions are declared in jvm.h and defined inside the virtual
machine; neither is part of Module.c. The bindings are therefore embedded over
an arbitrary runtime (a record of four state transformers), and every call
into the runtime is logged in a trace so that what the bindings invoke, and how
often, can be stated.
-/

set_option autoImplicit false

/-! ## JNI types -/

/-- Modelled from the spec: the JNIEnv pointer of jni.h (not among the sources),
identified by a number. -/
abbrev JNIEnv := Nat

/-- Modelled from the spec: the jobject reference of jni.h (not among the
sources). The spec calls it an opaque handle; it is either NULL (none) or
names an object by its identity. -/
abbrev jobject := Option Nat

/-- Modelled from the spec: in jni.h a jclass is a jobject. -/
abbrev jclass := jobject

/-- Modelled from the spec: a jstring reference, NULL (none) or an immutable
Java string, which is represented by its characters. -/
abbrev jstring := Option String

/-- Modelled from the spec: a jobjectArray reference as passed for the package
names, NULL (none) or an array of string references, represented by its
elements. -/
abbrev jobjectArray := Option (List jstring)

/-! ## The runtime behind jvm.h -/

/-- How a void JNI call comes back: normally, or with an exception pending. -/
inductive Outcome (Err : Type) where
  | ok
  | thrown (e : Err)
  deriving DecidableEq

/-- The four runtime operations that jvm.h declares and Module.c calls. Their
definitions are not part of Module.c, so they are parameters: each takes the
arguments of the C function and transforms the runtime state, reporting an
outcome. -/
structure Runtime (St Err : Type) where
  defineModule : JNIEnv → jobject → jstring → jstring → jobjectArray → St → Outcome Err × St
  addModuleExports : JNIEnv → jobject → jstring → jobject → St → Outcome Err × St
  addReadsModule : JNIEnv → jobject → jobject → St → Outcome Err × St
  addModulePackage : JNIEnv → jobject → jstring → St → Outcome Err × St

/-- One call of a jvm.h function together with the arguments it received. -/
inductive JvmCall where
  | DefineModule (env : JNIEnv) (module : jobject) (version location : jstring)
      (packages : jobjectArray)
  | AddModuleExports (env : JNIEnv) (from_ : jobject) (pkg : jstring) (to_ : jobject)
  | AddReadsModule (env : JNIEnv) (from_ to_ : jobject)
  | AddModulePackage (env : JNIEnv) (m : jobject) (pkg : jstring)
  deriving DecidableEq

/-- The runtime operation a logged call stands for, run on a runtime state. -/
def JvmCall.perform {St Err : Type} (rt : Runtime St Err) : JvmCall → St → Outcome Err × St
  | .DefineModule env module version location packages =>
      rt.defineModule env module version location packages
  | .AddModuleExports env from_ pkg to_ => rt.addModuleExports env from_ pkg to_
  | .AddReadsModule env from_ to_ => rt.addReadsModule env from_ to_
  | .AddModulePackage env m pkg => rt.addModulePackage env m pkg

/-- Tells whether a call is an export or a reads operation. -/
def JvmCall.isExportOrReads : JvmCall → Bool
  | .AddModuleExports _ _ _ _ => true
  | .AddReadsModule _ _ _ => true
  | _ => false

/-- What native code runs against: the runtime state, and the log of the
jvm.h calls made so far, oldest first. -/
structure Machine (St : Type) where
  state : St
  trace : List JvmCall

/-- A call statement into the runtime: the operation runs on the runtime state
and the call is appended to the log. -/
def Machine.call {St Err : Type} (rt : Runtime St Err) (c : JvmCall) (mch : Machine St) :
    Outcome Err × Machine St :=
  ((c.perform rt mch.state).1, { state := (c.perform rt mch.state).2, trace := mch.trace ++ [c] })

/-- The call JVM_DefineModule(env, module, version, location, packages). -/
def JVM_DefineModule {St Err : Type} (rt : Runtime St Err) (env : JNIEnv) (module : jobject)
    (version location : jstring) (packages : jobjectArray) (mch : Machine St) :
    Outcome Err × Machine St :=
  Machine.call rt (JvmCall.DefineModule env module version location packages) mch

/-- The call JVM_AddModuleExports(env, from, pkg, to). -/
def JVM_AddModuleExports {St Err : Type} (rt : Runtime St Err) (env : JNIEnv) (from_ : jobject)
    (pkg : jstring) (to_ : jobject) (mch : Machine St) : Outcome Err × Machine St :=
  Machine.call rt (JvmCall.AddModuleExports env from_ pkg to_) mch

/-- The call JVM_AddReadsModule(env, from, to). -/
def JVM_AddReadsModule {St Err : Type} (rt : Runtime St Err) (env : JNIEnv) (from_ to_ : jobject)
    (mch : Machine St) : Outcome Err × Machine St :=
  Machine.call rt (JvmCall.AddReadsModule env from_ to_) mch

/-- The call JVM_AddModulePackage(env, m, pkg). -/
def JVM_AddModulePackage {St Err : Type} (rt : Runtime St Err) (env : JNIEnv) (m : jobject)
    (pkg : jstring) (mch : Machine St) : Outcome Err × Machine St :=
  Machine.call rt (JvmCall.AddModulePackage env m pkg) mch

/-! ## Module.c -/

/-- Module.c lines 31-36. -/
def Java_java_lang_reflect_Module_jvmDefineModule {St Err : Type} (rt : Runtime St Err)
    (env : JNIEnv) (cls : jclass) (module : jclass) (version : jstring) (location : jstring)
    (packages : jobjectArray) (mch : Machine St) : Outcome Err × Machine St :=
  let _ := cls
  JVM_DefineModule rt env module version location packages mch

/-- Module.c lines 38-43. -/
def Java_java_lang_reflect_Module_jvmAddModuleExports {St Err : Type} (rt : Runtime St Err)
    (env : JNIEnv) (cls : jclass) (from_ : jobject) (pkg : jstring) (to_ : jobject)
    (mch : Machine St) : Outcome Err × Machine St :=
  let _ := cls
  JVM_AddModuleExports rt env from_ pkg to_ mch

/-- Module.c lines 45-49. -/
def Java_java_lang_reflect_Module_jvmAddReadsModule {St Err : Type} (rt : Runtime St Err)
    (env : JNIEnv) (cls : jclass) (from_ : jobject) (to_ : jobject) (mch : Machine St) :
    Outcome Err × Machine St :=
  let _ := cls
  JVM_AddReadsModule rt env from_ to_ mch

/-- Module.c lines 51-55. -/
def Java_java_lang_reflect_Module_jvmAddModulePackage {St Err : Type} (rt : Runtime St Err)
    (env : JNIEnv) (cls : jclass) (m : jobject) (pkg : jstring) (mch : Machine St) :
    Outcome Err × Machine St :=
  let _ := cls
  JVM_AddModulePackage rt env m pkg mch

/-- The runtime operations performed between two points of an execution: what
the later log holds beyond the earlier one. -/
def callsMade {St : Type} (before after : Machine St) : List JvmCall :=
  after.trace.drop before.trace.length

/-! ## Sequences of calls -/

/-- One invocation of an entry point of Module.c, with all of its arguments. -/
inductive BindingCall where
  | jvmDefineModule (env : JNIEnv) (cls : jclass) (module : jclass) (version location : jstring)
      (packages : jobjectArray)
  | jvmAddModuleExports (env : JNIEnv) (cls : jclass) (from_ : jobject) (pkg : jstring)
      (to_ : jobject)
  | jvmAddReadsModule (env : JNIEnv) (cls : jclass) (from_ to_ : jobject)
  | jvmAddModulePackage (env : JNIEnv) (cls : jclass) (m : jobject) (pkg : jstring)
  deriving DecidableEq

/-- Runs the entry point that an invocation names. -/
def BindingCall.invoke {St Err : Type} (rt : Runtime St Err) :
    BindingCall → Machine St → Outcome Err × Machine St
  | .jvmDefineModule env cls module version location packages =>
      Java_java_lang_reflect_Module_jvmDefineModule rt env cls module version location packages
  | .jvmAddModuleExports env cls from_ pkg to_ =>
      Java_java_lang_reflect_Module_jvmAddModuleExports rt env cls from_ pkg to_
  | .jvmAddReadsModule env cls from_ to_ =>
      Java_java_lang_reflect_Module_jvmAddReadsModule rt env cls from_ to_
  | .jvmAddModulePackage env cls m pkg =>
      Java_java_lang_reflect_Module_jvmAddModulePackage rt env cls m pkg

/-- The direct runtime call that corresponds to an invocation according to the
specification: the JVM function of the same operation with the same arguments. -/
def BindingCall.direct : BindingCall → JvmCall
  | .jvmDefineModule env _ module version location packages =>
      JvmCall.DefineModule env module version location packages
  | .jvmAddModuleExports env _ from_ pkg to_ => JvmCall.AddModuleExports env from_ pkg to_
  | .jvmAddReadsModule env _ from_ to_ => JvmCall.AddReadsModule env from_ to_
  | .jvmAddModulePackage env _ m pkg => JvmCall.AddModulePackage env m pkg

/-- Runs a sequence of invocations of the entry points, one after the other,
collecting the outcome of each. -/
def runBindings {St Err : Type} (rt : Runtime St Err) :
    List BindingCall → Machine St → List (Outcome Err) × Machine St
  | [], mch => ([], mch)
  | c :: cs, mch =>
      ((c.invoke rt mch).1 :: (runBindings rt cs (c.invoke rt mch).2).1,
        (runBindings rt cs (c.invoke rt mch).2).2)

/-- Runs a sequence of direct runtime calls on a runtime state, one after the
other, collecting the outcome of each. -/
def runDirect {St Err : Type} (rt : Runtime St Err) :
    List JvmCall → St → List (Outcome Err) × St
  | [], st => ([], st)
  | c :: cs, st =>
      ((c.perform rt st).1 :: (runDirect rt cs (c.perform rt st).2).1,
        (runDirect rt cs (c.perform rt st).2).2)

/-! ## The module graph behind the bindings

The definitions of the four JVM functions are not part of Module.c. What they
do to the runtime state is taken from sections 3, 4, 6 and 7 of the
specification: a registry of modules, an export table and a readability graph,
with every operation validating its input before it changes anything.
-/

/-- Modelled from the spec: the identity of a module (section 3). The runtime is
handed module identities as handles, so it is the identity of the module
object. The module system itself is not among the sources. -/
abbrev ModuleId := Nat

/-- Modelled from the spec: a Module record (section 3), with its identity, an
optional version, an optional location and its set of package names. The
module registry is not among the sources. -/
structure ModuleRecord where
  name : ModuleId
  version : Option String
  location : Option String
  packages : List String
  deriving DecidableEq

/-- Modelled from the spec: the target scope of an export entry (section 3),
exported to every module or to a set of modules. The export table is not among
the sources. -/
inductive TargetScope where
  | Unqualified
  | QualifiedTo (targets : List ModuleId)
  deriving DecidableEq

/-- Modelled from the spec: an ExportEntry (section 3), keyed by module and
package. The export table is not among the sources. -/
structure ExportEntry where
  module : ModuleId
  package : String
  scope : TargetScope
  deriving DecidableEq

/-- Modelled from the spec: a ReadEdge (section 3), a directed pair of reader
and target. The readability graph is not among the sources. -/
structure ReadEdge where
  reader : ModuleId
  target : ModuleId
  deriving DecidableEq

/-- Modelled from the spec: the single module graph of section 9, made of the
module registry, the export table and the readability graph of section 2. It
is not among the sources. -/
structure ModuleGraph where
  modules : List ModuleRecord
  exports : List ExportEntry
  reads : List ReadEdge
  deriving DecidableEq

/-- Modelled from the spec: the four error kinds of section 7. The error
reporting of the runtime is not among the sources. -/
inductive ModuleError where
  | DuplicateModuleError
  | PackageConflictError
  | UnknownModuleError
  | UnknownPackageError
  deriving DecidableEq

/-- Modelled from the spec: lookup(name) of section 4.1, the metadata of a
registered module or absence. The module registry is not among the sources. -/
def ModuleGraph.lookup (g : ModuleGraph) (name : ModuleId) : Option ModuleRecord :=
  g.modules.find? (fun r => decide (r.name = name))

/-- Modelled from the spec: whether a package is already owned by another
module (sections 3 and 4.1). The module registry is not among the sources. -/
def ModuleGraph.ownedByOther (g : ModuleGraph) (name : ModuleId) (package : String) : Bool :=
  g.modules.any (fun r => decide (r.name ≠ name) && decide (package ∈ r.packages))

/-- Modelled from the spec: the validation of defineModule (section 4.1).
DuplicateModuleError if the name is registered, PackageConflictError if one of
the packages is owned by another module. The module registry is not among the
sources. -/
def ModuleGraph.defineModuleCheck (g : ModuleGraph) (name : ModuleId) (packages : List String) :
    Option ModuleError :=
  if (g.lookup name).isSome then some ModuleError.DuplicateModuleError
  else if packages.any (fun p => g.ownedByOther name p) then
    some ModuleError.PackageConflictError
  else none

/-- Modelled from the spec: defineModule of section 4.1, which registers a new
module with its package set once the input is validated. The module registry
is not among the sources. -/
def ModuleGraph.defineModule (g : ModuleGraph) (name : ModuleId) (version location : Option String)
    (packages : List String) : Outcome ModuleError × ModuleGraph :=
  match g.defineModuleCheck name packages with
  | some e => (Outcome.thrown e, g)
  | none =>
      (Outcome.ok,
        { g with
          modules :=
            g.modules ++
              [{ name := name, version := version, location := location,
                 packages := packages.dedup }] })

/-- Modelled from the spec: the validation of AddPackage (section 6), which
needs an already defined module and is subject to the same no-conflict
invariant as the initial registration. The module registry is not among the
sources. -/
def ModuleGraph.addPackageCheck (g : ModuleGraph) (module : ModuleId) (package : String) :
    Option ModuleError :=
  if (g.lookup module).isNone then some ModuleError.UnknownModuleError
  else if g.ownedByOther module package then some ModuleError.PackageConflictError
  else none

/-- Modelled from the spec: AddPackage of section 6, which registers an
additional package into an already defined module. The module registry is not
among the sources. -/
def ModuleGraph.addPackage (g : ModuleGraph) (module : ModuleId) (package : String) :
    Outcome ModuleError × ModuleGraph :=
  match g.addPackageCheck module package with
  | some e => (Outcome.thrown e, g)
  | none =>
      (Outcome.ok,
        { g with
          modules :=
            g.modules.map (fun r =>
              if r.name = module then
                { r with
                  packages :=
                    if package ∈ r.packages then r.packages else r.packages ++ [package] }
              else r) })

/-- Modelled from the spec: the scope under which the export table holds a
package of a module, if it has an entry for that key (section 3). The export
table is not among the sources. -/
def scopeOf : List ExportEntry → ModuleId → String → Option TargetScope
  | [], _, _ => none
  | e :: rest, m, p =>
      if e.module = m ∧ e.package = p then some e.scope else scopeOf rest m p

/-- Modelled from the spec: stores the scope of a key of the export table,
replacing the entry of that key or adding one (section 3: at most one entry
per key). The export table is not among the sources. -/
def setScope : List ExportEntry → ModuleId → String → TargetScope → List ExportEntry
  | [], m, p, s => [{ module := m, package := p, scope := s }]
  | e :: rest, m, p, s =>
      if e.module = m ∧ e.package = p then { module := m, package := p, scope := s } :: rest
      else e :: setScope rest m p s

/-- Modelled from the spec: the scope after addExport (section 4.2). Without a
target the package becomes unqualified-exported, superseding a qualified
export; with a target, the target joins the qualified set, which changes
nothing when it is already there or the export is already unqualified. The
export table is not among the sources. -/
def widen : Option TargetScope → Option ModuleId → TargetScope
  | _, none => TargetScope.Unqualified
  | none, some t => TargetScope.QualifiedTo [t]
  | some TargetScope.Unqualified, some _ => TargetScope.Unqualified
  | some (TargetScope.QualifiedTo ts), some t =>
      TargetScope.QualifiedTo (if t ∈ ts then ts else ts ++ [t])

/-- Modelled from the spec: the validation of addExport (section 4.2).
UnknownModuleError if the module is not registered, UnknownPackageError if the
package is not registered to that module. The export table is not among the
sources. -/
def ModuleGraph.addExportCheck (g : ModuleGraph) (module : ModuleId) (package : String) :
    Option ModuleError :=
  match g.lookup module with
  | none => some ModuleError.UnknownModuleError
  | some r => if package ∈ r.packages then none else some ModuleError.UnknownPackageError

/-- Modelled from the spec: addExport of section 4.2. The export table is not
among the sources. -/
def ModuleGraph.addExport (g : ModuleGraph) (module : ModuleId) (package : String)
    (targetModule : Option ModuleId) : Outcome ModuleError × ModuleGraph :=
  match g.addExportCheck module package with
  | some e => (Outcome.thrown e, g)
  | none =>
      (Outcome.ok,
        { g with
          exports :=
            setScope g.exports module package
              (widen (scopeOf g.exports module package) targetModule) })

/-- Modelled from the spec: the validation of addRead (section 4.3).
UnknownModuleError if either endpoint is undefined. The readability graph is
not among the sources. -/
def ModuleGraph.addReadCheck (g : ModuleGraph) (from_ to_ : ModuleId) : Option ModuleError :=
  if (g.lookup from_).isNone || (g.lookup to_).isNone then some ModuleError.UnknownModuleError
  else none

/-- Modelled from the spec: addRead of section 4.3, which inserts the edge from
the reader to the target into a graph that is a set of edges. The readability
graph is not among the sources. -/
def ModuleGraph.addRead (g : ModuleGraph) (from_ to_ : ModuleId) :
    Outcome ModuleError × ModuleGraph :=
  match g.addReadCheck from_ to_ with
  | some e => (Outcome.thrown e, g)
  | none =>
      (Outcome.ok,
        { g with
          reads :=
            if ({ reader := from_, target := to_ } : ReadEdge) ∈ g.reads then g.reads
            else g.reads ++ [{ reader := from_, target := to_ }] })

/-- Modelled from the spec: the package names held by the elements of an array,
none if an element is an absent handle. The handle translation of the runtime
is not among the sources. -/
def elementNames : List jstring → Option (List String)
  | [] => some []
  | none :: _ => none
  | some p :: rest =>
      match elementNames rest with
      | none => none
      | some ps => some (p :: ps)

/-- Modelled from the spec: the package names held by an array handle. An absent
array holds no package; an array with an absent element has no package set.
The handle translation of the runtime is not among the sources. -/
def packageNames : jobjectArray → Option (List String)
  | none => some []
  | some elems => elementNames elems

/-- Modelled from the spec: the runtime of the specification as seen through
jvm.h, the four operations of section 6 on the module graph. The JVM functions
are not among the sources. Handles are translated at the boundary (section 9):
a module handle stands for the identity of its object, a string handle for its
characters. The specification does not say what happens to an absent handle
where it requires a value; here it names no registered module or package and
is rejected, before anything is changed, with the Unknown error of its kind.
Only the target of an export may be absent (section 4.2). -/
def moduleRuntime : Runtime ModuleGraph ModuleError where
  defineModule := fun _ module version location packages g =>
    match module, packageNames packages with
    | none, _ => (Outcome.thrown ModuleError.UnknownModuleError, g)
    | some _, none => (Outcome.thrown ModuleError.UnknownPackageError, g)
    | some name, some ps => g.defineModule name version location ps
  addModuleExports := fun _ from_ pkg to_ g =>
    match from_, pkg with
    | none, _ => (Outcome.thrown ModuleError.UnknownModuleError, g)
    | some _, none => (Outcome.thrown ModuleError.UnknownPackageError, g)
    | some m, some p => g.addExport m p to_
  addReadsModule := fun _ from_ to_ g =>
    match from_, to_ with
    | some f, some t => g.addRead f t
    | _, _ => (Outcome.thrown ModuleError.UnknownModuleError, g)
  addModulePackage := fun _ m pkg g =>
    match m, pkg with
    | none, _ => (Outcome.thrown ModuleError.UnknownModuleError, g)
    | some _, none => (Outcome.thrown ModuleError.UnknownPackageError, g)
    | some name, some p => g.addPackage name p

/-- A module graph with one module, 1, that owns the package a.pkg, and a
second module, 2, without packages. -/
def sampleGraph : ModuleGraph :=
  { modules :=
      [{ name := 1, version := none, location := none, packages := ["a.pkg"] },
       { name := 2, version := none, location := none, packages := [] }],
    exports := [],
    reads := [] }

/-! ## The bindings forward to the runtime -/

/-- C1: for every env, cls, module, version, location and packages, the entry
point jvmDefineModule is the call JVM_DefineModule(env, module, version,
location, packages): exactly that call, with the arguments in that order and
unchanged, is added to the log, and outcome and runtime state are those of the
runtime operation on these arguments. -/
theorem jvmDefineModule_forwards {St Err : Type} (rt : Runtime St Err) (env : JNIEnv)
    (cls module : jclass) (version location : jstring) (packages : jobjectArray)
    (mch : Machine St) :
    Java_java_lang_reflect_Module_jvmDefineModule rt env cls module version location packages mch
        = JVM_DefineModule rt env module version location packages mch
      ∧ (Java_java_lang_reflect_Module_jvmDefineModule rt env cls module version location
            packages mch).2.trace
          = mch.trace ++ [JvmCall.DefineModule env module version location packages]
      ∧ ((Java_java_lang_reflect_Module_jvmDefineModule rt env cls module version location
            packages mch).1,
          (Java_java_lang_reflect_Module_jvmDefineModule rt env cls module version location
            packages mch).2.state)
          = rt.defineModule env module version location packages mch.state :=
  ⟨rfl, rfl, rfl⟩

/-- C2: for every env, cls, from, pkg and to, the entry point
jvmAddModuleExports is the call JVM_AddModuleExports(env, from, pkg, to) with
the arguments in that order and unchanged; an absent target is forwarded as
absent, so the runtime receives the unqualified form as given. -/
theorem jvmAddModuleExports_forwards {St Err : Type} (rt : Runtime St Err) (env : JNIEnv)
    (cls : jclass) (from_ : jobject) (pkg : jstring) (to_ : jobject) (mch : Machine St) :
    Java_java_lang_reflect_Module_jvmAddModuleExports rt env cls from_ pkg to_ mch
        = JVM_AddModuleExports rt env from_ pkg to_ mch
      ∧ (Java_java_lang_reflect_Module_jvmAddModuleExports rt env cls from_ pkg to_ mch).2.trace
          = mch.trace ++ [JvmCall.AddModuleExports env from_ pkg to_]
      ∧ ((Java_java_lang_reflect_Module_jvmAddModuleExports rt env cls from_ pkg to_ mch).1,
          (Java_java_lang_reflect_Module_jvmAddModuleExports rt env cls from_ pkg to_
            mch).2.state)
          = rt.addModuleExports env from_ pkg to_ mch.state
      ∧ (Java_java_lang_reflect_Module_jvmAddModuleExports rt env cls from_ pkg none mch).2.trace
          = mch.trace ++ [JvmCall.AddModuleExports env from_ pkg none]
      ∧ ((Java_java_lang_reflect_Module_jvmAddModuleExports rt env cls from_ pkg none mch).1,
          (Java_java_lang_reflect_Module_jvmAddModuleExports rt env cls from_ pkg none
            mch).2.state)
          = rt.addModuleExports env from_ pkg none mch.state :=
  ⟨rfl, rfl, rfl, rfl, rfl⟩

/-- C3: for every env, cls, from and to, the entry point jvmAddReadsModule is
the call JVM_AddReadsModule(env, from, to), reader first and target second:
the logged call is the swapped one only when from and to are the same handle. -/
theorem jvmAddReadsModule_forwards {St Err : Type} (rt : Runtime St Err) (env : JNIEnv)
    (cls : jclass) (from_ to_ : jobject) (mch : Machine St) :
    Java_java_lang_reflect_Module_jvmAddReadsModule rt env cls from_ to_ mch
        = JVM_AddReadsModule rt env from_ to_ mch
      ∧ (Java_java_lang_reflect_Module_jvmAddReadsModule rt env cls from_ to_ mch).2.trace
          = mch.trace ++ [JvmCall.AddReadsModule env from_ to_]
      ∧ ((Java_java_lang_reflect_Module_jvmAddReadsModule rt env cls from_ to_ mch).1,
          (Java_java_lang_reflect_Module_jvmAddReadsModule rt env cls from_ to_ mch).2.state)
          = rt.addReadsModule env from_ to_ mch.state
      ∧ ((Java_java_lang_reflect_Module_jvmAddReadsModule rt env cls from_ to_ mch).2.trace
            = mch.trace ++ [JvmCall.AddReadsModule env to_ from_] ↔ from_ = to_) := by
  refine ⟨rfl, rfl, rfl, ?_⟩
  show mch.trace ++ [JvmCall.AddReadsModule env from_ to_]
      = mch.trace ++ [JvmCall.AddReadsModule env to_ from_] ↔ from_ = to_
  constructor
  · intro h
    have h1 := List.append_cancel_left h
    simp only [List.cons.injEq, JvmCall.AddReadsModule.injEq, and_true, true_and] at h1
    exact h1.1
  · intro h
    rw [h]

/-- C4: for every env, cls, m and pkg, the entry point jvmAddModulePackage is
the call JVM_AddModulePackage(env, m, pkg) with the arguments in that order and
unchanged, and none of the calls it makes is an export or a reads operation. -/
theorem jvmAddModulePackage_forwards {St Err : Type} (rt : Runtime St Err) (env : JNIEnv)
    (cls : jclass) (m : jobject) (pkg : jstring) (mch : Machine St) :
    Java_java_lang_reflect_Module_jvmAddModulePackage rt env cls m pkg mch
        = JVM_AddModulePackage rt env m pkg mch
      ∧ (Java_java_lang_reflect_Module_jvmAddModulePackage rt env cls m pkg mch).2.trace
          = mch.trace ++ [JvmCall.AddModulePackage env m pkg]
      ∧ ((Java_java_lang_reflect_Module_jvmAddModulePackage rt env cls m pkg mch).1,
          (Java_java_lang_reflect_Module_jvmAddModulePackage rt env cls m pkg mch).2.state)
          = rt.addModulePackage env m pkg mch.state
      ∧ (callsMade mch
            (Java_java_lang_reflect_Module_jvmAddModulePackage rt env cls m pkg mch).2).all
          (fun c => !c.isExportOrReads) = true := by
  refine ⟨rfl, rfl, rfl, ?_⟩
  show ((mch.trace ++ [JvmCall.AddModulePackage env m pkg]).drop mch.trace.length).all
      (fun c => !c.isExportOrReads) = true
  rw [List.drop_left]
  rfl

/-- C5: errors are surfaced directly. For each of the four entry points and
every input, the outcome of the binding call, success or failure with a given
error, is the outcome of the runtime operation it forwards to. -/
theorem binding_outcome_eq_runtime_outcome {St Err : Type} (rt : Runtime St Err) (env : JNIEnv)
    (cls module : jclass) (version location : jstring) (packages : jobjectArray)
    (from_ to_ m : jobject) (pkg : jstring) (mch : Machine St) :
    (Java_java_lang_reflect_Module_jvmDefineModule rt env cls module version location packages
          mch).1
        = (rt.defineModule env module version location packages mch.state).1
      ∧ (Java_java_lang_reflect_Module_jvmAddModuleExports rt env cls from_ pkg to_ mch).1
        = (rt.addModuleExports env from_ pkg to_ mch.state).1
      ∧ (Java_java_lang_reflect_Module_jvmAddReadsModule rt env cls from_ to_ mch).1
        = (rt.addReadsModule env from_ to_ mch.state).1
      ∧ (Java_java_lang_reflect_Module_jvmAddModulePackage rt env cls m pkg mch).1
        = (rt.addModulePackage env m pkg mch.state).1 :=
  ⟨rfl, rfl, rfl, rfl⟩

/-- C6: every call is a pure pass-through without retries. For each of the
four entry points, every input and every runtime, hence whether the operation
succeeds or fails, the runtime operations performed by one binding call are
exactly one: the corresponding JVM call. -/
theorem binding_trace_is_single_call {St Err : Type} (rt : Runtime St Err) (env : JNIEnv)
    (cls module : jclass) (version location : jstring) (packages : jobjectArray)
    (from_ to_ m : jobject) (pkg : jstring) (mch : Machine St) :
    (callsMade mch
          (Java_java_lang_reflect_Module_jvmDefineModule rt env cls module version location
            packages mch).2
        = [JvmCall.DefineModule env module version location packages]
      ∧ callsMade mch
          (Java_java_lang_reflect_Module_jvmAddModuleExports rt env cls from_ pkg to_ mch).2
        = [JvmCall.AddModuleExports env from_ pkg to_]
      ∧ callsMade mch
          (Java_java_lang_reflect_Module_jvmAddReadsModule rt env cls from_ to_ mch).2
        = [JvmCall.AddReadsModule env from_ to_]
      ∧ callsMade mch
          (Java_java_lang_reflect_Module_jvmAddModulePackage rt env cls m pkg mch).2
        = [JvmCall.AddModulePackage env m pkg])
      ∧ ((callsMade mch
          (Java_java_lang_reflect_Module_jvmDefineModule rt env cls module version location
            packages mch).2).length = 1
      ∧ (callsMade mch
          (Java_java_lang_reflect_Module_jvmAddModuleExports rt env cls from_ pkg to_
            mch).2).length = 1
      ∧ (callsMade mch
          (Java_java_lang_reflect_Module_jvmAddReadsModule rt env cls from_ to_ mch).2).length = 1
      ∧ (callsMade mch
          (Java_java_lang_reflect_Module_jvmAddModulePackage rt env cls m pkg mch).2).length
          = 1)
      ∧ (mch.trace
          <+: (Java_java_lang_reflect_Module_jvmDefineModule rt env cls module version location
            packages mch).2.trace
      ∧ mch.trace
          <+: (Java_java_lang_reflect_Module_jvmAddModuleExports rt env cls from_ pkg to_
            mch).2.trace
      ∧ mch.trace
          <+: (Java_java_lang_reflect_Module_jvmAddReadsModule rt env cls from_ to_ mch).2.trace
      ∧ mch.trace
          <+: (Java_java_lang_reflect_Module_jvmAddModulePackage rt env cls m pkg
            mch).2.trace) := by
  have key : ∀ c : JvmCall, (mch.trace ++ [c]).drop mch.trace.length = [c] :=
    fun c => List.drop_left _ _
  refine ⟨⟨key _, key _, key _, key _⟩, ⟨?_, ?_, ?_, ?_⟩, ⟨?_, ?_, ?_, ?_⟩⟩
  · exact congrArg List.length (key (JvmCall.DefineModule env module version location packages))
  · exact congrArg List.length (key (JvmCall.AddModuleExports env from_ pkg to_))
  · exact congrArg List.length (key (JvmCall.AddReadsModule env from_ to_))
  · exact congrArg List.length (key (JvmCall.AddModulePackage env m pkg))
  · exact List.prefix_append _ _
  · exact List.prefix_append _ _
  · exact List.prefix_append _ _
  · exact List.prefix_append _ _

/-- Running invocations through the bindings only ever extends the log by the
corresponding direct calls, and acts on the runtime state as those calls do. -/
theorem runBindings_eq_runDirect {St Err : Type} (rt : Runtime St Err) (cs : List BindingCall) :
    ∀ mch : Machine St,
      (runBindings rt cs mch).1 = (runDirect rt (cs.map BindingCall.direct) mch.state).1
        ∧ (runBindings rt cs mch).2.state
            = (runDirect rt (cs.map BindingCall.direct) mch.state).2
        ∧ (runBindings rt cs mch).2.trace = mch.trace ++ cs.map BindingCall.direct := by
  induction cs with
  | nil => intro mch; simp [runBindings, runDirect]
  | cons c cs ih =>
      intro mch
      have hstep : c.invoke rt mch = Machine.call rt c.direct mch := by
        cases c <;> rfl
      have h := ih (c.invoke rt mch).2
      simp only [runBindings, runDirect, List.map_cons]
      rw [hstep] at h ⊢
      refine ⟨?_, ?_, ?_⟩
      · show (c.direct.perform rt mch.state).1 :: _ = _
        rw [h.1]
        rfl
      · rw [h.2.1]
        rfl
      · rw [h.2.2]
        show (mch.trace ++ [c.direct]) ++ _ = _
        simp

/-- C9: the binding layer holds no state of its own. For every finite sequence
of calls to the four entry points, from any runtime state, the outcome of each
call and the final runtime state are those of the corresponding sequence of
direct JVM calls with the same arguments, and the runtime sees exactly that
sequence of calls. -/
theorem bindings_simulate_direct_calls {St Err : Type} (rt : Runtime St Err)
    (cs : List BindingCall) (mch : Machine St) :
    (runBindings rt cs mch).1 = (runDirect rt (cs.map BindingCall.direct) mch.state).1
      ∧ (runBindings rt cs mch).2.state = (runDirect rt (cs.map BindingCall.direct) mch.state).2
      ∧ callsMade mch (runBindings rt cs mch).2 = cs.map BindingCall.direct := by
  have h := runBindings_eq_runDirect rt cs mch
  refine ⟨h.1, h.2.1, ?_⟩
  unfold callsMade
  rw [h.2.2, List.drop_left]

/-- C10: the cls argument is ignored by all four entry points. For any two
values of cls and all other arguments equal, the outcome, the runtime state
and the logged runtime call with its arguments are identical. -/
theorem bindings_ignore_cls {St Err : Type} (rt : Runtime St Err) (env : JNIEnv)
    (cls1 cls2 module : jclass) (version location : jstring) (packages : jobjectArray)
    (from_ to_ m : jobject) (pkg : jstring) (mch : Machine St) :
    Java_java_lang_reflect_Module_jvmDefineModule rt env cls1 module version location packages mch
        = Java_java_lang_reflect_Module_jvmDefineModule rt env cls2 module version location
            packages mch
      ∧ Java_java_lang_reflect_Module_jvmAddModuleExports rt env cls1 from_ pkg to_ mch
        = Java_java_lang_reflect_Module_jvmAddModuleExports rt env cls2 from_ pkg to_ mch
      ∧ Java_java_lang_reflect_Module_jvmAddReadsModule rt env cls1 from_ to_ mch
        = Java_java_lang_reflect_Module_jvmAddReadsModule rt env cls2 from_ to_ mch
      ∧ Java_java_lang_reflect_Module_jvmAddModulePackage rt env cls1 m pkg mch
        = Java_java_lang_reflect_Module_jvmAddModulePackage rt env cls2 m pkg mch :=
  ⟨rfl, rfl, rfl, rfl⟩

/-! ## The module graph: idempotence and failure atomicity -/

theorem scopeOf_setScope (es : List ExportEntry) (m : ModuleId) (p : String) (s : TargetScope) :
    scopeOf (setScope es m p s) m p = some s := by
  induction es with
  | nil => simp [setScope, scopeOf]
  | cons e rest ih =>
      by_cases h : e.module = m ∧ e.package = p
      · simp [setScope, scopeOf, h]
      · simp [setScope, scopeOf, h, ih]

theorem setScope_setScope (es : List ExportEntry) (m : ModuleId) (p : String) (s : TargetScope) :
    setScope (setScope es m p s) m p s = setScope es m p s := by
  induction es with
  | nil => simp [setScope]
  | cons e rest ih =>
      by_cases h : e.module = m ∧ e.package = p
      · simp [setScope, h]
      · simp [setScope, h, ih]

theorem widen_widen (old : Option TargetScope) (t : Option ModuleId) :
    widen (some (widen old t)) t = widen old t := by
  cases t with
  | none => simp [widen]
  | some t =>
      cases old with
      | none => simp [widen]
      | some sc =>
          cases sc with
          | Unqualified => rfl
          | QualifiedTo ts =>
              by_cases h : t ∈ ts
              · simp [widen, h]
              · simp [widen, h]

/-- A second identical addExport changes neither the graph nor the outcome. -/
theorem addExport_twice (g : ModuleGraph) (m : ModuleId) (p : String) (t : Option ModuleId) :
    (g.addExport m p t).2.addExport m p t = g.addExport m p t := by
  cases hc : g.addExportCheck m p with
  | some e => simp [ModuleGraph.addExport, hc]
  | none =>
      have hc2 : ModuleGraph.addExportCheck
          { g with
            exports := setScope g.exports m p (widen (scopeOf g.exports m p) t) } m p = none := hc
      simp only [ModuleGraph.addExport, hc, hc2, scopeOf_setScope, widen_widen,
        setScope_setScope]

/-- A second identical addRead changes neither the graph nor the outcome. -/
theorem addRead_twice (g : ModuleGraph) (f t : ModuleId) :
    (g.addRead f t).2.addRead f t = g.addRead f t := by
  cases hc : g.addReadCheck f t with
  | some e => simp [ModuleGraph.addRead, hc]
  | none =>
      by_cases hmem : ({ reader := f, target := t } : ReadEdge) ∈ g.reads
      · have hc2 : ModuleGraph.addReadCheck { g with reads := g.reads } f t = none := hc
        simp [ModuleGraph.addRead, hc, hmem]
      · have hc2 : ModuleGraph.addReadCheck
            { g with reads := g.reads ++ [{ reader := f, target := t }] } f t = none := hc
        simp [ModuleGraph.addRead, hc, hc2, hmem]

theorem defineModule_thrown (g : ModuleGraph) (name : ModuleId) (version location : Option String)
    (packages : List String) (e : ModuleError)
    (h : (g.defineModule name version location packages).1 = Outcome.thrown e) :
    (g.defineModule name version location packages).2 = g := by
  unfold ModuleGraph.defineModule at h ⊢
  cases hc : g.defineModuleCheck name packages with
  | some e1 => simp
  | none => simp [hc] at h

theorem addExport_thrown (g : ModuleGraph) (m : ModuleId) (p : String) (t : Option ModuleId)
    (e : ModuleError) (h : (g.addExport m p t).1 = Outcome.thrown e) :
    (g.addExport m p t).2 = g := by
  unfold ModuleGraph.addExport at h ⊢
  cases hc : g.addExportCheck m p with
  | some e1 => simp
  | none => simp [hc] at h

theorem addRead_thrown (g : ModuleGraph) (f t : ModuleId) (e : ModuleError)
    (h : (g.addRead f t).1 = Outcome.thrown e) : (g.addRead f t).2 = g := by
  unfold ModuleGraph.addRead at h ⊢
  cases hc : g.addReadCheck f t with
  | some e1 => simp
  | none => simp [hc] at h

theorem addPackage_thrown (g : ModuleGraph) (m : ModuleId) (p : String) (e : ModuleError)
    (h : (g.addPackage m p).1 = Outcome.thrown e) : (g.addPackage m p).2 = g := by
  unfold ModuleGraph.addPackage at h ⊢
  cases hc : g.addPackageCheck m p with
  | some e1 => simp
  | none => simp [hc] at h

/-- C7: addRead and addExport are idempotent. On the module graph of the
specification, for every state and all arguments, calling jvmAddReadsModule,
respectively jvmAddModuleExports, a second time with identical arguments
leaves the state as the first call left it, and the second call has the
outcome of the first. -/
theorem addReads_addExports_idempotent (env : JNIEnv) (cls : jclass) (from_ to_ : jobject)
    (pkg : jstring) (mch : Machine ModuleGraph) :
    ((Java_java_lang_reflect_Module_jvmAddReadsModule moduleRuntime env cls from_ to_
          (Java_java_lang_reflect_Module_jvmAddReadsModule moduleRuntime env cls from_ to_
            mch).2).2.state
        = (Java_java_lang_reflect_Module_jvmAddReadsModule moduleRuntime env cls from_ to_
            mch).2.state
      ∧ (Java_java_lang_reflect_Module_jvmAddReadsModule moduleRuntime env cls from_ to_
          (Java_java_lang_reflect_Module_jvmAddReadsModule moduleRuntime env cls from_ to_
            mch).2).1
        = (Java_java_lang_reflect_Module_jvmAddReadsModule moduleRuntime env cls from_ to_
            mch).1)
      ∧ ((Java_java_lang_reflect_Module_jvmAddModuleExports moduleRuntime env cls from_ pkg to_
          (Java_java_lang_reflect_Module_jvmAddModuleExports moduleRuntime env cls from_ pkg to_
            mch).2).2.state
        = (Java_java_lang_reflect_Module_jvmAddModuleExports moduleRuntime env cls from_ pkg to_
            mch).2.state
      ∧ (Java_java_lang_reflect_Module_jvmAddModuleExports moduleRuntime env cls from_ pkg to_
          (Java_java_lang_reflect_Module_jvmAddModuleExports moduleRuntime env cls from_ pkg to_
            mch).2).1
        = (Java_java_lang_reflect_Module_jvmAddModuleExports moduleRuntime env cls from_ pkg to_
            mch).1) := by
  have hreads : (moduleRuntime.addReadsModule env from_ to_
        (moduleRuntime.addReadsModule env from_ to_ mch.state).2)
      = moduleRuntime.addReadsModule env from_ to_ mch.state := by
    cases from_ with
    | none => rfl
    | some f =>
        cases to_ with
        | none => rfl
        | some t => exact addRead_twice mch.state f t
  have hexports : (moduleRuntime.addModuleExports env from_ pkg to_
        (moduleRuntime.addModuleExports env from_ pkg to_ mch.state).2)
      = moduleRuntime.addModuleExports env from_ pkg to_ mch.state := by
    cases from_ with
    | none => rfl
    | some f =>
        cases pkg with
        | none => rfl
        | some p => exact addExport_twice mch.state f p to_
  have hreads2 := congrArg Prod.snd hreads
  have hreads1 := congrArg Prod.fst hreads
  have hexports2 := congrArg Prod.snd hexports
  have hexports1 := congrArg Prod.fst hexports
  exact ⟨⟨hreads2, hreads1⟩, ⟨hexports2, hexports1⟩⟩

/-- C8: no partial state is left on failure. On the module graph of the
specification, for each of the four operations and every input, a call of the
entry point that fails, whatever the error, leaves the state exactly as it
was before the call. -/
theorem failed_call_leaves_state (c : BindingCall) (mch : Machine ModuleGraph) (e : ModuleError)
    (h : (c.invoke moduleRuntime mch).1 = Outcome.thrown e) :
    (c.invoke moduleRuntime mch).2.state = mch.state := by
  cases c with
  | jvmDefineModule env cls module version location packages =>
      change (moduleRuntime.defineModule env module version location packages mch.state).1
        = Outcome.thrown e at h
      show (moduleRuntime.defineModule env module version location packages mch.state).2
        = mch.state
      cases module with
      | none => rfl
      | some name =>
          cases hp : packageNames packages with
          | none => simp [moduleRuntime, hp]
          | some ps =>
              simp only [moduleRuntime, hp] at h ⊢
              exact defineModule_thrown mch.state name version location ps e h
  | jvmAddModuleExports env cls from_ pkg to_ =>
      change (moduleRuntime.addModuleExports env from_ pkg to_ mch.state).1
        = Outcome.thrown e at h
      show (moduleRuntime.addModuleExports env from_ pkg to_ mch.state).2 = mch.state
      cases from_ with
      | none => rfl
      | some f =>
          cases pkg with
          | none => rfl
          | some p => exact addExport_thrown mch.state f p to_ e h
  | jvmAddReadsModule env cls from_ to_ =>
      change (moduleRuntime.addReadsModule env from_ to_ mch.state).1 = Outcome.thrown e at h
      show (moduleRuntime.addReadsModule env from_ to_ mch.state).2 = mch.state
      cases from_ with
      | none => rfl
      | some f =>
          cases to_ with
          | none => rfl
          | some t => exact addRead_thrown mch.state f t e h
  | jvmAddModulePackage env cls m pkg =>
      change (moduleRuntime.addModulePackage env m pkg mch.state).1 = Outcome.thrown e at h
      show (moduleRuntime.addModulePackage env m pkg mch.state).2 = mch.state
      cases m with
      | none => rfl
      | some name =>
          cases pkg with
          | none => rfl
          | some p => exact addPackage_thrown mch.state name p e h

/-- C8, at a concrete input: defining a module 3 that claims the package a.pkg,
which module 1 of the sample graph owns, fails with PackageConflictError and
leaves the sample graph as it was. -/
theorem failed_call_leaves_state_witness :
    (BindingCall.invoke moduleRuntime
          (BindingCall.jvmDefineModule 0 none (some 3) none none (some [some "b.pkg", some "a.pkg"]))
          { state := sampleGraph, trace := [] }).1
        = Outcome.thrown ModuleError.PackageConflictError
      ∧ (BindingCall.invoke moduleRuntime
          (BindingCall.jvmDefineModule 0 none (some 3) none none (some [some "b.pkg", some "a.pkg"]))
          { state := sampleGraph, trace := [] }).2.state
        = sampleGraph :=
  ⟨by decide,
    failed_call_leaves_state
      (BindingCall.jvmDefineModule 0 none (some 3) none none (some [some "b.pkg", some "a.pkg"]))
      { state := sampleGraph, trace := [] } ModuleError.PackageConflictError (by decide)⟩
